import Mathlib

/-!
Verification development for the Lazorkit example application.

The definitions below are shallow embeddings of the TypeScript sources:

* error normalizer          — src/app/lib/errors.ts (transformError, ERROR_MAPPINGS)
* transfer orchestration    — src/app/hooks/useTransfer.ts (transfer, reset)
* wallet session reconciler — src/app/hooks/useLazorkit.ts (createWallet, login, logout)
* balance poller            — src/app/hooks/useBalance.ts (fetchBalance)
* balance display           — WalletBalance component (formatBalance)
* constants                 — src/app/lib/solana/constants.ts

JavaScript strings are modelled as Lean strings, JavaScript numbers as
rationals, nullable fields as Option, and thrown or rejected values by
the Except monad made explicit as data.
-/

/-- Decides whether the first list is a leading segment of the second,
comparing characters with BEq.  Used to model JavaScript substring search. -/
def leadEq : List Char → List Char → Bool
  | [], _ => true
  | _ :: _, [] => false
  | n :: ns, h :: hs => n == h && leadEq ns hs

/-- Decides whether the first list occurs as a contiguous segment of the
second list. -/
def occursIn (needle : List Char) : List Char → Bool
  | [] => leadEq needle []
  | h :: hs => leadEq needle (h :: hs) || occursIn needle hs

/-- Model of the JavaScript expression hay.includes(needle). -/
def containsSub (hay needle : String) : Bool :=
  occursIn needle.data hay.data

/-- Model of JavaScript String.prototype.trim: drop whitespace from both
ends of the string. -/
def jsTrim (s : String) : String :=
  String.mk (((s.data.dropWhile Char.isWhitespace).reverse.dropWhile
    Char.isWhitespace).reverse)

/-- A classification rule pattern from ERROR_MAPPINGS in
src/app/lib/errors.ts: either a literal substring, or the one regular
expression of the table, which is an alternation of literal substrings. -/
inductive ErrPattern where
  | lit (s : String)
  | regexAlt (alts : List String)
deriving DecidableEq

/-- Whether a pattern matches a message: literal patterns by substring
containment (String.prototype.includes), the alternation regex by
containment of one of its alternatives (RegExp.prototype.test). -/
def ErrPattern.matchesMsg (p : ErrPattern) (msg : String) : Bool :=
  match p with
  | .lit s => containsSub msg s
  | .regexAlt alts => alts.any (fun a => containsSub msg a)

/-- The ordered classification table ERROR_MAPPINGS of
src/app/lib/errors.ts, transcribed entry by entry in source order. -/
def ERROR_MAPPINGS : List (ErrPattern × String) := [
  (.lit "NotAllowedError", "Passkey operation was cancelled or not allowed."),
  (.lit "InvalidStateError", "A passkey already exists for this device."),
  (.lit "NotSupportedError", "Passkeys are not supported on this device or browser."),
  (.lit "SecurityError", "Security error. Please ensure you are using HTTPS."),
  (.lit "AbortError", "The operation was aborted. Please try again."),
  (.lit "ConstraintError", "The passkey does not meet the required constraints."),
  (.lit "load failed", "Failed to connect to Lazorkit services. Please try again."),
  (.lit "Load failed", "Failed to connect to Lazorkit services. Please try again."),
  (.lit "NetworkError", "Network error. Please check your connection."),
  (.lit "Failed to fetch", "Network error. Please check your connection."),
  (.regexAlt ["ECONNREFUSED", "ETIMEDOUT", "ENOTFOUND"],
    "Unable to connect to the server. Please try again later."),
  (.lit "timeout", "Request timed out. Please try again."),
  (.lit "CORS", "Connection blocked. Please try again."),
  (.lit "passkeyPublicKey must be exactly 33 bytes, got 0",
    "Passkey data not found. Please create a new wallet instead of logging in."),
  (.lit "passkeyPublicKey must be exactly 33 bytes",
    "Invalid passkey data. Please try creating a new wallet."),
  (.lit "paymaster", "Paymaster service unavailable. Please try again later."),
  (.lit "smart wallet", "Smart wallet operation failed. Please try again."),
  (.lit "Transaction simulation failed",
    "Transaction simulation failed. Please check your inputs."),
  (.lit "Insufficient funds", "Insufficient funds for this transaction."),
  (.lit "Blockhash not found", "Transaction expired. Please try again."),
  (.lit "Account not found", "The specified account was not found."),
  (.lit "Session expired", "Your session has expired. Please log in again."),
  (.lit "Invalid session", "Invalid session. Please log in again."),
  (.lit "Wallet not connected", "Please connect your wallet first."),
  (.lit "User rejected", "The request was rejected.")]

/-- The fixed fallback message of transformError. -/
def fallbackErrorMessage : String := "An unexpected error occurred."

/-- The rule-scanning loop of transformError: return the canonical
message of the first rule whose pattern matches, none when no rule
matches. -/
def firstMatch (msg : String) : List (ErrPattern × String) → Option String
  | [] => none
  | r :: rest => if r.1.matchesMsg msg then some r.2 else firstMatch msg rest

/-- The tail of transformError once a message string has been extracted:
scan ERROR_MAPPINGS in order; when no rule matches return the trimmed
message, or the fallback when trimming leaves the empty string
(JavaScript: errorMessage.trim() with the or-else operator). -/
def classifyMessage (msg : String) : String :=
  match firstMatch msg ERROR_MAPPINGS with
  | some m => m
  | none => if jsTrim msg = "" then fallbackErrorMessage else jsTrim msg

/-- The shapes of JavaScript values that transformError distinguishes:
null, undefined, an Error instance (carrying its message), a plain
string, a non-Error object with a message property (carrying the
stringified message), and the remaining shapes the source lumps into its
final else branch: numbers, booleans, and objects without a message
property. -/
inductive JSValue where
  | null
  | undefined
  | errObj (message : String)
  | str (s : String)
  | objWithMessage (message : String)
  | num (n : ℚ)
  | boolVal (b : Bool)
  | objNoMessage
deriving DecidableEq

/-- The message-extraction step of transformError: an Error instance
yields its message, a string yields itself, an object with a message
property yields the stringified property; every other shape yields
nothing. -/
def extractMessage : JSValue → Option String
  | .errObj m => some m
  | .str s => some s
  | .objWithMessage m => some m
  | _ => none

/-- Shallow embedding of transformError from src/app/lib/errors.ts. -/
def transformError (e : JSValue) : String :=
  match e with
  | .null => fallbackErrorMessage
  | .undefined => fallbackErrorMessage
  | .errObj m => classifyMessage m
  | .str s => classifyMessage s
  | .objWithMessage m => classifyMessage m
  | .num _ => fallbackErrorMessage
  | .boolVal _ => fallbackErrorMessage
  | .objNoMessage => fallbackErrorMessage

/-- Number of lamports in one SOL, from src/app/lib/solana/constants.ts. -/
def LAMPORTS_PER_SOL : ℤ := 1000000000

/-- The amount conversion inside transfer (src/app/hooks/useTransfer.ts,
line 153): lamports given to the transfer instruction are
Math.floor(amount * LAMPORTS_PER_SOL). -/
def toBaseUnits (amount : ℚ) : ℤ := ⌊amount * (LAMPORTS_PER_SOL : ℚ)⌋

/-- Transaction status, from src/app/hooks/useTransfer.ts. -/
inductive TransactionStatus where
  | idle
  | pending
  | confirmed
  | failed
deriving DecidableEq

/-- TransferState of src/app/hooks/useTransfer.ts, with nullable fields
as Option. -/
structure TransferState where
  isSubmitting : Bool
  signature : Option String
  error : Option String
  status : TransactionStatus
deriving DecidableEq

/-- The initialState constant of useTransfer (lines 53 to 58), also the
state installed by reset. -/
def initialState : TransferState :=
  ⟨false, none, none, .idle⟩

/-- One call of the transfer action, recorded as data: the list of
states passed to setState in order, whether the external
signAndSendTransaction operation was invoked, and the settled result of
the returned promise (the thrown value or the returned signature). -/
structure TransferRun where
  states : List TransferState
  calledExternal : Bool
  result : Except JSValue String

/-- Shallow embedding of the transfer function of
src/app/hooks/useTransfer.ts (lines 102 to 186).  Inputs: whether
smartWalletPubkey is non-null, the result of isValidSolanaAddress on the
recipient, the amount, and the outcome of the awaited external
signAndSendTransaction call (only consulted when that call is reached).
Each fail-fast branch performs one setState and throws an Error carrying
the raw message; the main path performs the pending setState, invokes
the external operation, and settles to confirmed or failed. -/
def transferExec (connected : Bool) (recipientValid : Bool) (amount : ℚ)
    (outcome : Except JSValue String) : TransferRun :=
  if connected = false then
    ⟨[⟨false, none, some (transformError (.str "Wallet not connected")), .failed⟩],
      false, .error (.errObj "Wallet not connected")⟩
  else if recipientValid = false then
    ⟨[⟨false, none, some (transformError (.str "Invalid recipient address")), .failed⟩],
      false, .error (.errObj "Invalid recipient address")⟩
  else if amount ≤ 0 then
    ⟨[⟨false, none, some "Amount must be greater than 0", .failed⟩],
      false, .error (.errObj "Amount must be greater than 0")⟩
  else
    match outcome with
    | .ok sig =>
        ⟨[⟨true, none, none, .pending⟩, ⟨false, some sig, none, .confirmed⟩],
          true, .ok sig⟩
    | .error e =>
        ⟨[⟨true, none, none, .pending⟩, ⟨false, none, some (transformError e), .failed⟩],
          true, .error e⟩

/-- A TransferState is reachable when it is the initial state (also the
state reinstalled by reset) or a state installed by some call of
transfer. -/
def TransferReachable (s : TransferState) : Prop :=
  s = initialState ∨
    ∃ connected recipientValid amount outcome,
      s ∈ (transferExec connected recipientValid amount outcome).states

/-- Local state of the useLazorkit reconciler hook that the three wallet
actions mutate: the operation-in-flight flag and the normalized local
error. -/
structure LocalState where
  isOperating : Bool
  localError : Option String
deriving DecidableEq

/-- Shared shape of createWallet, login and logout in
src/app/hooks/useLazorkit.ts: clear the local error, set isOperating,
run the awaited body, catch any failure into the local error through
transformError, and clear isOperating in the finally block.  The states
after each mutation are recorded in order; the outcome stands for the
awaited body settling (a synchronous throw and a rejection both reach
the catch block). -/
def runWalletAction (init : LocalState) (outcome : Except JSValue Unit) :
    List LocalState :=
  let s1 : LocalState := ⟨init.isOperating, none⟩
  let s2 : LocalState := ⟨true, s1.localError⟩
  match outcome with
  | .ok _ => [s1, s2, ⟨false, s2.localError⟩]
  | .error e =>
      let s3 : LocalState := ⟨s2.isOperating, some (transformError e)⟩
      [s1, s2, s3, ⟨false, s3.localError⟩]

/-- The createWallet action (useLazorkit lines 161 to 187).  Its body
additionally clears persisted wallet keys and runs the one-time store
setup before calling connect; every step of the body is inside the try
block, so its observable effect on (isOperating, localError) is the
shared action shape. -/
def createWalletRun (init : LocalState) (outcome : Except JSValue Unit) :
    List LocalState :=
  runWalletAction init outcome

/-- The login action (useLazorkit lines 192 to 210). -/
def loginRun (init : LocalState) (outcome : Except JSValue Unit) :
    List LocalState :=
  runWalletAction init outcome

/-- The logout action (useLazorkit lines 215 to 228). -/
def logoutRun (init : LocalState) (outcome : Except JSValue Unit) :
    List LocalState :=
  runWalletAction init outcome

/-- The published isLoading flag of useLazorkit (line 156). -/
def isLoadingOf (sdkIsLoading isOperating isRestoring : Bool) : Bool :=
  sdkIsLoading || isOperating || isRestoring

/-- Conversion from lamports to SOL used by the balance poller
(useBalance line 69). -/
def lamportsToSol (lamports : ℤ) : ℚ :=
  (lamports : ℚ) / 1000000000

/-- BalanceState of src/app/hooks/useBalance.ts. -/
structure BalanceSt where
  balance : Option ℚ
  balanceLamports : Option ℤ
  isLoading : Bool
  error : Option String
deriving DecidableEq

/-- Balance state before any fetch. -/
def initialBalanceSt : BalanceSt :=
  ⟨none, none, false, none⟩

/-- The synchronous head of fetchBalance (useBalance lines 54 to 62),
run with the wallet address captured by the closure at dispatch time: a
null address clears both balance fields and returns without dispatching
a read; otherwise isLoading is set and the error cleared, and a read is
dispatched.  Returns the updated state and whether a read is now in
flight. -/
def fetchDispatch (walletAddress : Option String) (s : BalanceSt) :
    BalanceSt × Bool :=
  match walletAddress with
  | none => (⟨none, none, s.isLoading, s.error⟩, false)
  | some _ => (⟨s.balance, s.balanceLamports, true, none⟩, true)

/-- The completion of a dispatched read (useBalance lines 64 to 77):
on success the lamports and SOL fields are assigned and isLoading is
cleared; on failure the error is set and both balance fields cleared.
Faithful to the source, this handler consults neither the address
captured at dispatch time nor the address current at completion time:
the source has no staleness guard. -/
def fetchComplete (result : Except String ℤ) (s : BalanceSt) : BalanceSt :=
  match result with
  | .ok lamports => ⟨some (lamportsToSol lamports), some lamports, false, s.error⟩
  | .error _ => ⟨none, none, false, some "Failed to fetch balance"⟩

/-- A world for the balance poller: the wallet address currently
reported upstream, the balance state, and the captured addresses of
reads still in flight. -/
structure PollerWorld where
  currentAddress : Option String
  st : BalanceSt
  pending : List (Option String)
deriving DecidableEq

/-- Events driving the balance poller: an address change, a dispatch of
fetchBalance (the mount or address-change effect, the 30 second
interval, or a manual refresh — all share the one fetch path), and the
completion of an in-flight read carrying the address that was captured
when it was dispatched. -/
inductive PollerEvent where
  | setAddress (a : Option String)
  | dispatch
  | complete (captured : Option String) (result : Except String ℤ)

/-- Single event step of the poller.  A completion for a read that is
not in flight is ignored; an in-flight completion applies fetchComplete
unconditionally — exactly as in the source, where the promise
continuation assigns its result without comparing the captured address
to the current one. -/
def pollerStep (w : PollerWorld) (e : PollerEvent) : PollerWorld :=
  match e with
  | .setAddress a => ⟨a, w.st, w.pending⟩
  | .dispatch =>
      let d := fetchDispatch w.currentAddress w.st
      ⟨w.currentAddress, d.1, if d.2 then w.currentAddress :: w.pending else w.pending⟩
  | .complete captured result =>
      if captured ∈ w.pending then
        ⟨w.currentAddress, fetchComplete result w.st, w.pending.erase captured⟩
      else w

/-- Run the poller from the empty initial world over a list of events. -/
def pollerRun (events : List PollerEvent) : PollerWorld :=
  events.foldl pollerStep ⟨none, initialBalanceSt, []⟩

/-- The interleaving of the stale-balance-discard test: address A is
set and a fetch dispatched; the address changes to B and a second fetch
is dispatched; the fetch for B resolves first with 100 lamports; then
the stale fetch for A resolves with 50 lamports. -/
def staleTrace : List PollerEvent :=
  [.setAddress (some "A"), .dispatch,
   .setAddress (some "B"), .dispatch,
   .complete (some "B") (.ok 100),
   .complete (some "A") (.ok 50)]

/-- Model of JavaScript Number.prototype.toFixed(4) at the level of the
represented value: the integer n for which n / 10^4 is nearest to the
input, the larger n on ties, as the ECMAScript specification of toFixed
prescribes. -/
def toFixed4 (q : ℚ) : ℤ := ⌊q * 10000 + 1 / 2⌋

/-- The four fraction digits that toFixed(4) prints for a fraction part
fp below 10^4. -/
def fracChars4 (fp : ℕ) : List Char :=
  [Nat.digitChar (fp / 1000 % 10), Nat.digitChar (fp / 100 % 10),
   Nat.digitChar (fp / 10 % 10), Nat.digitChar (fp % 10)]

/-- Drop the trailing run of zero characters, as the replace call of
formatBalance does on the fraction digits with its regular expression. -/
def dropTrailingZeros (cs : List Char) : List Char :=
  (cs.reverse.dropWhile (fun c => c == '0')).reverse

/-- The fraction digits of toFixed(4) output after stripping trailing
zeros. -/
def strippedFrac (fp : ℕ) : List Char :=
  dropTrailingZeros (fracChars4 fp)

/-- Renders a non-negative 4-decimal fixed-point value n / 10^4 the way
formatBalance does: print the toFixed(4) digits, strip the trailing
zeros of the fraction, and drop the dangling decimal point when the
whole fraction was zeros (the regular expression consumes the point
together with the zero run). -/
def formatFixed4 (n : ℤ) : String :=
  let m := n.toNat
  let ip := m / 10000
  let fp := m % 10000
  let frac := strippedFrac fp
  if frac.isEmpty then toString ip else toString ip ++ "." ++ String.mk frac

/-- Shallow embedding of formatBalance from the WalletBalance
component: zero prints as "0", any other value below 0.0001 prints as
"< 0.0001", and otherwise the value is printed with toFixed(4) and the
trailing zeros of the fraction are stripped. -/
def formatBalance (balance : ℚ) : String :=
  if balance = 0 then "0"
  else if balance < 1 / 10000 then "< 0.0001"
  else formatFixed4 (toFixed4 balance)

/-- Alternative reading of the formatting claim, following the words of
the specification: the value truncated — rounded toward zero — to 4
decimal places before stripping, instead of rounded to nearest as
toFixed does. -/
def truncFormatBalance (balance : ℚ) : String :=
  if balance = 0 then "0"
  else if balance < 1 / 10000 then "< 0.0001"
  else formatFixed4 ⌊balance * 10000⌋

/-- The length of a list does not grow under dropWhile. -/
lemma dropWhile_length_le {α : Type} (p : α → Bool) (l : List α) :
    (l.dropWhile p).length ≤ l.length := by
  induction l with
  | nil => simp [List.dropWhile]
  | cons a t ih =>
    by_cases h : p a = true
    · simp only [List.dropWhile, h]
      exact Nat.le_trans ih (Nat.le_succ _)
    · simp [List.dropWhile, h]

/-- The head surviving dropWhile fails the dropped predicate. -/
lemma head?_dropWhile_false {α : Type} (p : α → Bool) :
    ∀ (l : List α) (c : α), (l.dropWhile p).head? = some c → p c = false := by
  intro l
  induction l with
  | nil => intro c h; simp [List.dropWhile] at h
  | cons a t ih =>
    intro c h
    by_cases hp : p a = true
    · exact ih c (by simpa [List.dropWhile, hp] using h)
    · simp only [List.dropWhile, hp] at h
      simp only [List.head?_cons, Option.some.injEq] at h
      subst h
      exact Bool.not_eq_true _ |>.mp hp

/-- When rule i of a rule list matches a message and no earlier rule
does, the linear scan returns the canonical message of rule i. -/
lemma firstMatch_eq_of_first (msg : String) :
    ∀ (rules : List (ErrPattern × String)) (i : ℕ) (h : i < rules.length),
      (rules.get ⟨i, h⟩).1.matchesMsg msg = true →
      (∀ j (hj : j < i), (rules.get ⟨j, hj.trans h⟩).1.matchesMsg msg = false) →
      firstMatch msg rules = some (rules.get ⟨i, h⟩).2 := by
  intro rules
  induction rules with
  | nil => intro i h; exact absurd h (Nat.not_lt_zero i)
  | cons r rest ih =>
    intro i h hm hfirst
    cases i with
    | zero =>
      simp only [List.get] at hm ⊢
      unfold firstMatch
      simp [hm]
    | succ n =>
      have hr : r.1.matchesMsg msg = false := hfirst 0 (Nat.succ_pos n)
      unfold firstMatch
      simp only [hr, Bool.false_eq_true, if_false]
      simp only [List.get] at hm ⊢
      exact ih n (Nat.lt_of_succ_lt_succ h) hm
        (fun j hj => hfirst (j + 1) (Nat.succ_lt_succ hj))

/-- C1: for every reachable TransferState produced by the useTransfer
hook (via transfer or reset), at most one of error and signature is
non-null and status agrees with the populated field: confirmed implies a
signature and no error, failed implies an error and no signature, idle
and pending imply neither. -/
theorem transferState_exclusivity (s : TransferState) (h : TransferReachable s) :
    (s.status = .confirmed → s.signature ≠ none ∧ s.error = none) ∧
    (s.status = .failed → s.error ≠ none ∧ s.signature = none) ∧
    ((s.status = .idle ∨ s.status = .pending) → s.signature = none ∧ s.error = none) := by
  rcases h with h | ⟨c, rv, amt, out, hmem⟩
  · subst h
    refine ⟨?_, ?_, ?_⟩ <;> intro hst <;> simp_all [initialState]
  · unfold transferExec at hmem
    split_ifs at hmem with h1 h2 h3
    · simp only [List.mem_singleton] at hmem
      subst hmem
      refine ⟨?_, ?_, ?_⟩ <;> intro hst <;> simp_all
    · simp only [List.mem_singleton] at hmem
      subst hmem
      refine ⟨?_, ?_, ?_⟩ <;> intro hst <;> simp_all
    · simp only [List.mem_singleton] at hmem
      subst hmem
      refine ⟨?_, ?_, ?_⟩ <;> intro hst <;> simp_all
    · cases out with
      | ok sig =>
        simp only [List.mem_cons, List.mem_singleton, List.not_mem_nil, or_false] at hmem
        rcases hmem with hmem | hmem <;> subst hmem <;>
          refine ⟨?_, ?_, ?_⟩ <;> intro hst <;> simp_all
      | error e =>
        simp only [List.mem_cons, List.mem_singleton, List.not_mem_nil, or_false] at hmem
        rcases hmem with hmem | hmem <;> subst hmem <;>
          refine ⟨?_, ?_, ?_⟩ <;> intro hst <;> simp_all

/-- Witness for C1 at the initial state. -/
theorem transferState_exclusivity_witness :
    (initialState.status = .confirmed →
      initialState.signature ≠ none ∧ initialState.error = none) ∧
    (initialState.status = .failed →
      initialState.error ≠ none ∧ initialState.signature = none) ∧
    ((initialState.status = .idle ∨ initialState.status = .pending) →
      initialState.signature = none ∧ initialState.error = none) :=
  transferState_exclusivity initialState (Or.inl rfl)

/-- C10: inputs that are neither nullish, nor an Error, nor a string,
nor an object with a message property — numbers, booleans, plain
objects without a message field — always produce the fallback string,
without being matched against the rule list. -/
theorem transformError_nonmessage_fallback :
    (∀ n : ℚ, transformError (.num n) = "An unexpected error occurred.") ∧
    (∀ b : Bool, transformError (.boolVal b) = "An unexpected error occurred.") ∧
    transformError .objNoMessage = "An unexpected error occurred." :=
  ⟨fun _ => rfl, fun _ => rfl, rfl⟩

/-- C7: transformError maps null and undefined to the fixed fallback
string, and any input whose extracted message matches no rule to the
trimmed message, or the fallback when the trimmed message is empty. -/
theorem transformError_nullish_and_unmatched :
    transformError .null = "An unexpected error occurred." ∧
    transformError .undefined = "An unexpected error occurred." ∧
    (∀ v msg, extractMessage v = some msg →
      firstMatch msg ERROR_MAPPINGS = none →
      transformError v =
        (if jsTrim msg = "" then "An unexpected error occurred." else jsTrim msg)) := by
  refine ⟨rfl, rfl, ?_⟩
  intro v msg hext hnone
  have hc : classifyMessage msg =
      if jsTrim msg = "" then fallbackErrorMessage else jsTrim msg := by
    unfold classifyMessage
    rw [hnone]
  cases v <;> simp only [extractMessage, Option.some.injEq, reduceCtorEq] at hext <;>
    subst hext <;> simpa [transformError, fallbackErrorMessage] using hc

/-- Witness for C7 at a message no rule matches. -/
theorem transformError_nullish_and_unmatched_witness :
    transformError (.str "  hello  ") =
      (if jsTrim "  hello  " = "" then "An unexpected error occurred."
        else jsTrim "  hello  ") :=
  transformError_nullish_and_unmatched.2.2 (.str "  hello  ") "  hello  " rfl (by decide)

/-- C3: transformError scans ERROR_MAPPINGS in order and returns the
canonical message of the first rule whose pattern matches the extracted
message: whenever rule i matches and no rule before it does, the result
is the message of rule i — so of two or more matching rules the
earliest in the list wins. -/
theorem transformError_first_rule_wins (v : JSValue) (msg : String) (i : ℕ)
    (h : i < ERROR_MAPPINGS.length)
    (hext : extractMessage v = some msg)
    (hm : (ERROR_MAPPINGS.get ⟨i, h⟩).1.matchesMsg msg = true)
    (hfirst : ∀ j (hj : j < i),
      (ERROR_MAPPINGS.get ⟨j, hj.trans h⟩).1.matchesMsg msg = false) :
    transformError v = (ERROR_MAPPINGS.get ⟨i, h⟩).2 := by
  have hc : classifyMessage msg = (ERROR_MAPPINGS.get ⟨i, h⟩).2 := by
    unfold classifyMessage
    rw [firstMatch_eq_of_first msg ERROR_MAPPINGS i h hm hfirst]
  cases v <;> simp only [extractMessage, Option.some.injEq, reduceCtorEq] at hext <;>
    subst hext <;> simpa [transformError] using hc

/-- Witness for C3: a crafted message matching both rule 2
(NotSupportedError) and rule 5 (ConstraintError) classifies to the
message of rule 2, the earlier of the two. -/
theorem transformError_first_rule_wins_witness :
    transformError (.str "NotSupportedError with ConstraintError") =
      "Passkeys are not supported on this device or browser." :=
  transformError_first_rule_wins (.str "NotSupportedError with ConstraintError")
    "NotSupportedError with ConstraintError" 2 (by decide) rfl (by decide) (by decide)

/-- C4: the transfer operation submits exactly floor(amount times 10^9)
lamports: the conversion is the floor of the product, it sends
100000000 lamports for 0.1 SOL, and it floors 0.0000000015 SOL to 1
lamport, never rounding up to 2. -/
theorem toBaseUnits_floor_law :
    (∀ amount : ℚ, toBaseUnits amount = ⌊amount * 10 ^ 9⌋) ∧
    toBaseUnits (1 / 10) = 100000000 ∧
    toBaseUnits (15 / 10 ^ 10) = 1 ∧
    ¬ toBaseUnits (15 / 10 ^ 10) = 2 := by
  refine ⟨fun amount => ?_, ?_, ?_, ?_⟩ <;> norm_num [toBaseUnits, LAMPORTS_PER_SOL]

/-- C5: each of the three fail-fast checks of transfer rejects without
reaching the external sign-and-send call, every state it installs has
isSubmitting false, the promise rejects, and for amount minus one the
recorded error message is the exact validation string. -/
theorem transfer_failfast_no_submit (connected recipientValid : Bool) (amount : ℚ)
    (outcome : Except JSValue String)
    (h : connected = false ∨ recipientValid = false ∨ amount ≤ 0) :
    (transferExec connected recipientValid amount outcome).calledExternal = false ∧
    (∀ s ∈ (transferExec connected recipientValid amount outcome).states,
      s.isSubmitting = false) ∧
    (∃ e, (transferExec connected recipientValid amount outcome).result = .error e) ∧
    (connected = true → recipientValid = true → amount = -1 →
      (transferExec connected recipientValid amount outcome).states =
        [⟨false, none, some "Amount must be greater than 0", .failed⟩]) := by
  unfold transferExec
  split_ifs with h1 h2 h3
  · refine ⟨rfl, ?_, ⟨_, rfl⟩, ?_⟩
    · intro s hs
      rw [List.mem_singleton] at hs
      subst hs
      rfl
    · intro hc
      rw [hc] at h1
      exact absurd h1 (by decide)
  · refine ⟨rfl, ?_, ⟨_, rfl⟩, ?_⟩
    · intro s hs
      rw [List.mem_singleton] at hs
      subst hs
      rfl
    · intro _ hc
      rw [hc] at h2
      exact absurd h2 (by decide)
  · refine ⟨rfl, ?_, ⟨_, rfl⟩, ?_⟩
    · intro s hs
      rw [List.mem_singleton] at hs
      subst hs
      rfl
    · intro _ _ _
      rfl
  · exfalso
    rcases h with h | h | h
    · exact h1 h
    · exact h2 h
    · exact h3 h

/-- Witness for C5 at amount minus one with the other checks passing. -/
theorem transfer_failfast_no_submit_witness :
    (transferExec true true (-1) (.ok "sig123")).calledExternal = false ∧
    (∀ s ∈ (transferExec true true (-1) (.ok "sig123")).states,
      s.isSubmitting = false) ∧
    (∃ e, (transferExec true true (-1) (.ok "sig123")).result = .error e) ∧
    (true = true → true = true → (-1 : ℚ) = -1 →
      (transferExec true true (-1) (.ok "sig123")).states =
        [⟨false, none, some "Amount must be greater than 0", .failed⟩]) :=
  transfer_failfast_no_submit true true (-1) (.ok "sig123")
    (Or.inr (Or.inr (by norm_num)))

/-- C6: whatever the outcome of the awaited body — success, synchronous
throw, or rejection — each of the three reconciler actions ends with
the operation-in-flight flag cleared, and a caught failure is
republished through the normalizer into the local error; with the flag
cleared, the published isLoading no longer depends on it. -/
theorem walletAction_busy_cleared :
    (∀ init outcome, ((createWalletRun init outcome).getLastD init).isOperating = false) ∧
    (∀ init outcome, ((loginRun init outcome).getLastD init).isOperating = false) ∧
    (∀ init outcome, ((logoutRun init outcome).getLastD init).isOperating = false) ∧
    (∀ init e, ((createWalletRun init (.error e)).getLastD init).localError =
      some (transformError e)) ∧
    (∀ init e, ((loginRun init (.error e)).getLastD init).localError =
      some (transformError e)) ∧
    (∀ init e, ((logoutRun init (.error e)).getLastD init).localError =
      some (transformError e)) ∧
    (∀ sdk restoring, isLoadingOf sdk false restoring = (sdk || restoring)) := by
  refine ⟨?_, ?_, ?_, fun init e => rfl, fun init e => rfl, fun init e => rfl, ?_⟩
  · intro init outcome
    cases outcome <;> rfl
  · intro init outcome
    cases outcome <;> rfl
  · intro init outcome
    cases outcome <;> rfl
  · intro sdk restoring
    simp [isLoadingOf]

/-- C2 (failing input): in the interleaving where a fetch dispatched
for address A resolves after the address has changed to B and the fetch
for B has already resolved with 100 lamports, the completion handler of
the source — which has no staleness guard — overwrites the state with
the stale result 50, so BalanceState reflects the old address A rather
than the current address B. -/
theorem staleBalance_overwrite_bug :
    (pollerRun staleTrace).currentAddress = some "B" ∧
    (pollerRun staleTrace).st.balanceLamports = some 50 ∧
    (pollerRun staleTrace).st.balance = some (lamportsToSol 50) ∧
    ¬ (pollerRun staleTrace).st.balanceLamports = some 100 :=
  ⟨by decide, by decide, rfl, by decide⟩

/-- C8 (counterexample): a rejection whose message contains
"Blockhash not found" but also contains the pattern of the earlier
rule "timeout" is classified by the earlier rule, so the final state
carries the timeout message, not the expiry message the claim
requires. -/
theorem transfer_blockhash_counterexample :
    containsSub "Request timeout: Blockhash not found" "Blockhash not found" = true ∧
    (transferExec true true 1
      (.error (.errObj "Request timeout: Blockhash not found"))).states.getLast? =
      some ⟨false, none, some "Request timed out. Please try again.", .failed⟩ ∧
    ¬ (transferExec true true 1
      (.error (.errObj "Request timeout: Blockhash not found"))).states.getLast? =
      some ⟨false, none, some "Transaction expired. Please try again.", .failed⟩ := by
  have hexec : (transferExec true true 1
      (.error (.errObj "Request timeout: Blockhash not found"))).states =
      [⟨true, none, none, .pending⟩,
       ⟨false, none, some "Request timed out. Please try again.", .failed⟩] := by
    unfold transferExec
    rw [if_neg (by decide), if_neg (by decide), if_neg (by norm_num)]
    decide
  refine ⟨by decide, ?_, ?_⟩ <;> rw [hexec] <;> decide

/-- C8 (amended): if the wallet is connected, the recipient is valid
and the amount is positive, and signAndSendTransaction rejects with an
error whose message contains "Blockhash not found" and matches none of
the 19 rules preceding that rule in ERROR_MAPPINGS, then transfer
settles in the failed state with no signature and the error
"Transaction expired. Please try again.", rethrowing the original
error. -/
theorem transfer_blockhash_amended (amount : ℚ) (msg : String)
    (hamt : 0 < amount)
    (hsub : containsSub msg "Blockhash not found" = true)
    (hearlier : ∀ r ∈ ERROR_MAPPINGS.take 19, r.1.matchesMsg msg = false) :
    (transferExec true true amount (.error (.errObj msg))).states.getLast? =
      some ⟨false, none, some "Transaction expired. Please try again.", .failed⟩ ∧
    (transferExec true true amount (.error (.errObj msg))).result =
      .error (.errObj msg) := by
  have hlen : (19 : ℕ) < ERROR_MAPPINGS.length := by decide
  have hm : (ERROR_MAPPINGS.get ⟨19, hlen⟩).1.matchesMsg msg = true := hsub
  have hfirst : ∀ j (hj : j < 19),
      (ERROR_MAPPINGS.get ⟨j, hj.trans hlen⟩).1.matchesMsg msg = false := by
    intro j hj
    have hb : j < (ERROR_MAPPINGS.take 19).length := by
      rw [List.length_take]
      exact Nat.lt_min.mpr ⟨hj, hj.trans hlen⟩
    have he : ERROR_MAPPINGS.get ⟨j, hj.trans hlen⟩ =
        (ERROR_MAPPINGS.take 19).get ⟨j, hb⟩ := by
      simp only [List.get_eq_getElem]
      exact (List.getElem_take ERROR_MAPPINGS).symm
    rw [he]
    exact hearlier _ (List.get_mem _ _ _)
  have hclass : classifyMessage msg = "Transaction expired. Please try again." := by
    unfold classifyMessage
    rw [firstMatch_eq_of_first msg ERROR_MAPPINGS 19 hlen hm hfirst]
    rfl
  have htr : transformError (.errObj msg) = "Transaction expired. Please try again." := by
    simpa [transformError] using hclass
  unfold transferExec
  rw [if_neg (by decide), if_neg (by decide), if_neg (not_le.mpr hamt)]
  exact ⟨by simp [htr], rfl⟩

/-- Witness for the amended C8 at the bare expiry message. -/
theorem transfer_blockhash_amended_witness :
    (transferExec true true 1 (.error (.errObj "Blockhash not found"))).states.getLast? =
      some ⟨false, none, some "Transaction expired. Please try again.", .failed⟩ ∧
    (transferExec true true 1 (.error (.errObj "Blockhash not found"))).result =
      .error (.errObj "Blockhash not found") :=
  transfer_blockhash_amended 1 "Blockhash not found" (by norm_num) (by decide) (by decide)

/-- C9 (counterexample): at 1.99999 the component rounds — toFixed(4)
rounds to nearest — and prints "2", while truncating to 4 decimal
places as the claim words it would print "1.9999". -/
theorem formatBalance_truncation_counterexample :
    formatBalance (199999 / 100000) = "2" ∧
    truncFormatBalance (199999 / 100000) = "1.9999" ∧
    ¬ formatBalance (199999 / 100000) = truncFormatBalance (199999 / 100000) := by
  have h1 : formatBalance (199999 / 100000) = "2" := by
    have h : toFixed4 (199999 / 100000 : ℚ) = 20000 := by
      unfold toFixed4
      norm_num
    unfold formatBalance
    rw [if_neg (by norm_num), if_neg (by norm_num), h]
    decide
  have h2 : truncFormatBalance (199999 / 100000) = "1.9999" := by
    have h : ⌊(199999 / 100000 : ℚ) * 10000⌋ = 19999 := by norm_num
    unfold truncFormatBalance
    rw [if_neg (by norm_num), if_neg (by norm_num), h]
    decide
  refine ⟨h1, h2, ?_⟩
  rw [h1, h2]
  decide

/-- C9 (amended): formatBalance prints "0" for exactly zero and
"< 0.0001" for every other value below 0.0001; otherwise it prints the
value rounded to 4 decimal places the way toFixed(4) rounds — to
nearest, larger on ties — with the trailing zeros of the fraction (and
a dangling decimal point) stripped: the stripped fraction keeps at most
4 digits and never ends in a zero digit.  The specified examples hold,
and balance in display units is lamports divided by 10^9. -/
theorem formatBalance_rounding_amended :
    formatBalance 0 = "0" ∧
    (∀ q : ℚ, ¬ q = 0 → q < 1 / 10000 → formatBalance q = "< 0.0001") ∧
    (∀ q : ℚ, ¬ q = 0 → ¬ q < 1 / 10000 →
      formatBalance q = formatFixed4 ⌊q * 10000 + 1 / 2⌋) ∧
    (∀ fp : ℕ, (strippedFrac fp).length ≤ 4) ∧
    (∀ fp : ℕ, ∀ c ∈ (strippedFrac fp).getLast?, ¬ c = '0') ∧
    formatBalance (1 / 100000) = "< 0.0001" ∧
    formatBalance (123 / 100) = "1.23" ∧
    (∀ lamports : ℤ, lamportsToSol lamports = (lamports : ℚ) / 10 ^ 9) := by
  refine ⟨rfl, ?_, ?_, ?_, ?_, ?_, ?_, ?_⟩
  · intro q hq0 hlt
    unfold formatBalance
    rw [if_neg hq0, if_pos hlt]
  · intro q hq0 hlt
    unfold formatBalance
    rw [if_neg hq0, if_neg hlt]
    rfl
  · intro fp
    unfold strippedFrac dropTrailingZeros
    rw [List.length_reverse]
    have h := dropWhile_length_le (fun x => x == '0') (fracChars4 fp).reverse
    simpa [fracChars4] using h
  · intro fp c hc
    rw [Option.mem_def] at hc
    unfold strippedFrac dropTrailingZeros at hc
    rw [List.getLast?_reverse] at hc
    have hfalse := head?_dropWhile_false (fun x => x == '0') (fracChars4 fp).reverse c hc
    simpa using hfalse
  · unfold formatBalance
    rw [if_neg (by norm_num), if_pos (by norm_num)]
  · have h : toFixed4 (123 / 100 : ℚ) = 12300 := by
      unfold toFixed4
      norm_num
    unfold formatBalance
    rw [if_neg (by norm_num), if_neg (by norm_num), h]
    decide
  · intro lamports
    unfold lamportsToSol
    norm_num

/-- Witness for the amended C9 on the below-threshold branch. -/
theorem formatBalance_rounding_amended_witness :
    formatBalance (1 / 200000) = "< 0.0001" :=
  formatBalance_rounding_amended.2.1 (1 / 200000) (by norm_num) (by norm_num)
